import Mathlib

/-!
Shallow embedding of the scoring API handler (src/prompting/api/scoring/api.py)
and the validator constructor (src/neurons/validator.py), together with proofs
about the behaviour of these functions.

Conventions of the embedding:
- Python dict `.get` access is modelled with `Option`; a JSON field that is
  absent or null is `none` where the code treats the two alike, and
  `Option (Option _)` where the code distinguishes a present-but-null value
  from an absent key (`msg.get("content")` vs `msg["content"]`).
- Python dicts with string keys are association lists in insertion order,
  since the code iterates over them (`for chunk in chunks` iterates keys).
- A function body that evaluates an undefined global name is modelled as
  raising a NameError, recorded in the result type.
- `uuid.uuid4()` and chain state (`shared_settings.METAGRAPH.block`) are
  nondeterministic or external inputs; they are passed in through an `Env`
  record, read once per handler call exactly as the code reads them.
-/

set_option autoImplicit false

/-- Opaque sampling-parameter dictionaries; the handler only passes them
through, so any inhabited type with decidable equality serves. The Python
default literal is the empty dict, here the empty list. -/
abbrev SParams := List (String × String)

/-- A chat message, a JSON object with an optional "content" entry.
The outer `Option` is keyed presence (`none` = no "content" key, so that
`msg["content"]` raises KeyError), the inner one nullability
(`some none` = the key is present with value null, so that
`msg.get("content")` returns None without raising). -/
structure Message where
  content : Option (Option String)
  deriving DecidableEq

/-- The nested "body" object of the scoring payload, with the exact fields
the handler reads via `body.get(...)`. -/
structure Body where
  model : Option String
  task : Option String
  messages : Option (List Message)
  seed : Option Int
  sampling_parameters : Option SParams
  sampling_params : Option SParams
  timeout : Option Int
  deriving DecidableEq

/-- The top-level JSON payload of a POST /scoring request, with the fields
the handler reads: `body`, `timeout`, `uid`, `chunks`. -/
structure Payload where
  body : Option Body
  timeout : Option Int
  uid : Option (List Int)
  chunks : Option (List (String × List String))
  deriving DecidableEq

/-- External state the handler reads: current block height, configured
defaults, the model zoo lookup (`ModelZoo.get_model_by_id`, whose failure the
code catches, so it is an `Option`), and the fresh task id drawn from
`uuid.uuid4()`. -/
structure Env where
  block : Int
  neuronTimeout : Int
  samplingParams : SParams
  modelZoo : String → Option Unit
  freshId : String

/-- A value placed in the `uids` field of a DendriteResponseEvent. The
InferenceTask branch passes the integer uids one by one; the WebRetrievalTask
branch passes `[uids]`, a single element holding the whole list, which this
constructor records faithfully. -/
inductive UidVal where
  | single (u : Int)
  | listOf (us : List Int)
  deriving DecidableEq

/-- SynapseStreamResult as constructed by the handler: only the
accumulated_chunks field is supplied, possibly None. -/
structure SynapseStreamResult where
  accumulated_chunks : Option (List String)
  deriving DecidableEq

/-- DendriteResponseEvent as constructed by the handler. -/
structure DendriteResponseEvent where
  uids : List UidVal
  stream_results : List SynapseStreamResult
  timeout : Int
  deriving DecidableEq

/-- The task object passed to `task_scorer.add_to_queue`, a discriminated
union mirroring the two constructors the handler calls. The inference variant
records the arguments of `InferenceTask(...)`, the retrieval variant those of
`WebRetrievalTask(...)` (whose messages are the raw "content" values, null
permitted). -/
inductive STask where
  | inference (messages : Option (List Message)) (llm_model : Option Unit)
      (llm_model_id : Option String) (seed : Int) (sampling_params : SParams)
      (query : Option (List Message))
  | webRetrieval (messages : List (Option String)) (seed : Int)
      (sampling_params : SParams) (query : Option String)
  deriving DecidableEq

/-- Dataset entry attached at enqueue time: the empty base DatasetEntry for
inference, DDGDatasetEntry with its search term for retrieval. -/
inductive DSEntry where
  | base
  | ddg (search_term : Option String)
  deriving DecidableEq

/-- One entry appended to the scoring queue: the keyword arguments of
`task_scorer.add_to_queue`. -/
structure QueueEntry where
  task : STask
  response : DendriteResponseEvent
  dataset_entry : DSEntry
  block : Int
  step : Int
  task_id : String
  deriving DecidableEq

/-- Observable outcome of one handler call: the entries enqueued, the
error-level log emitted on an abort path (the code logs and returns rather
than raising on these paths), and an uncaught exception if one escapes. -/
structure HResult where
  enqueued : List QueueEntry
  errorLog : Option String
  exc : Option String
  deriving DecidableEq

/-- Python truthiness of the optional string read by `body.get("model")`:
None and the empty string are falsy. -/
def strTruthy : Option String → Bool
  | none => false
  | some s => s != ""

/-- Dict lookup `chunks.get(k, None)` on the insertion-ordered association
list modelling the chunks dict. -/
def lookupChunks (chunks : List (String × List String)) (k : String) :
    Option (List String) :=
  match chunks.find? (fun kv => kv.1 == k) with
  | some kv => some kv.2
  | none => none

/-- The comprehension `[msg["content"] for msg in messages]`: returns the
content values (null allowed) unless some message lacks the key, in which
case the subscript raises KeyError, modelled by `none`. -/
def allContents : List Message → Option (List (Option String))
  | [] => some []
  | m :: ms =>
    match m.content, allContents ms with
    | some c, some cs => some (c :: cs)
    | _, _ => none

/-- The POST /scoring handler `score_response`, embedded clause by clause:
empty-uid/chunks early return; the model branch, whose `return` statement
sits after the try/except and therefore fires whether or not the model zoo
lookup succeeded; the InferenceTask branch with its per-uid
`chunks.get(str(uid), None)` stream results; the WebRetrievalTask branch with
the try/except around `messages[0].get("content")`, the `[uids]` wrapping and
the stream result built from the keys of the chunks dict (string keys are
never None, so the is-not-None filter keeps them all); and the silent
fall-through for any other task name. -/
def score_response (env : Env) (payload : Payload) : HResult :=
  if ((payload.uid.getD []).isEmpty || (payload.chunks.getD []).isEmpty) then
    { enqueued := [],
      errorLog := some "Either uids or chunks is not valid, skipping scoring",
      exc := none }
  else
    match payload.body with
    | none =>
      { enqueued := [], errorLog := none, exc := some "AttributeError" }
    | some body =>
      if strTruthy body.model then
        match env.modelZoo (body.model.getD "") with
        | some _ => { enqueued := [], errorLog := none, exc := none }
        | none =>
          { enqueued := [],
            errorLog := some "model cannot be found in model zoo, skipping scoring",
            exc := none }
      else
        if body.task = some "InferenceTask" then
          { enqueued := [
              { task := STask.inference body.messages none body.model
                  (body.seed.getD 0)
                  (body.sampling_parameters.getD env.samplingParams)
                  body.messages,
                response := {
                  uids := (payload.uid.getD []).map UidVal.single,
                  stream_results := (payload.uid.getD []).map (fun u =>
                    { accumulated_chunks :=
                        lookupChunks (payload.chunks.getD []) (toString u) }),
                  timeout := payload.timeout.getD env.neuronTimeout },
                dataset_entry := DSEntry.base,
                block := env.block,
                step := -1,
                task_id := env.freshId } ],
            errorLog := none, exc := none }
        else
          if body.task = some "WebRetrievalTask" then
            match body.messages with
            | none =>
              { enqueued := [],
                errorLog := some "Failed to get search term from messages",
                exc := none }
            | some [] =>
              { enqueued := [],
                errorLog := some "Failed to get search term from messages",
                exc := none }
            | some (m :: rest) =>
              match allContents (m :: rest) with
              | none =>
                { enqueued := [], errorLog := none, exc := some "KeyError" }
              | some msgContents =>
                { enqueued := [
                    { task := STask.webRetrieval msgContents (body.seed.getD 0)
                        (body.sampling_params.getD []) m.content.join,
                      response := {
                        uids := [UidVal.listOf (payload.uid.getD [])],
                        stream_results := [
                          { accumulated_chunks :=
                              some ((payload.chunks.getD []).map Prod.fst) } ],
                        timeout := body.timeout.getD env.neuronTimeout },
                      dataset_entry := DSEntry.ddg m.content.join,
                      block := env.block,
                      step := -1,
                      task_id := env.freshId } ],
                  errorLog := none, exc := none }
          else
            { enqueued := [], errorLog := none, exc := none }

/-- Dynamic value passed to verify_scoring_signature; the code begins with
isinstance checks against str and bytes, so the embedding distinguishes
exactly those shapes. -/
inductive PyVal where
  | str (s : String)
  | bytes (b : List Nat)
  | other
  deriving DecidableEq

/-- Outcome of a call to verify_scoring_signature: a normal return of the
optional error message, or an uncaught NameError on an undefined global. -/
inductive VerifyResult where
  | ret (err : Option String)
  | nameError (nm : String)
  deriving DecidableEq

/-- The function verify_scoring_signature, embedded statement by statement.
After the isinstance checks and the comparison of signed_by against the
configured hotkey, the code builds
f-string of sha256(body), uuid, timestamp, signed_for — but the module
imports none of sha256, timestamp, signed_for or Keypair (uuid names the
module, not a nonce), so evaluating the f-string raises NameError on sha256,
its first undefined name. No nonce, timestamp or recipient parameter exists. -/
def verify_scoring_signature (apiHotkey : String)
    (signature body signed_by : PyVal) : VerifyResult :=
  match signature with
  | PyVal.str _ =>
    match body with
    | PyVal.bytes _ =>
      match signed_by with
      | PyVal.str sb =>
        if sb ≠ apiHotkey then
          VerifyResult.ret (some "Message not from the expected SS58 address")
        else
          VerifyResult.nameError "sha256"
      | _ => VerifyResult.ret (some "Invalid signed_by address")
    | _ => VerifyResult.ret (some "Body is not of type bytes")
  | _ => VerifyResult.ret (some "Invalid signature type")

/-- Validator configuration slice read by `Validator.__init__`:
`config.neuron.tasks` and `config.neuron.task_p`. Probabilities are
rationals; the floating-point representation of the Python floats is not
modelled. -/
structure VConfig where
  tasks : List String
  task_p : List ℚ

/-- The state `Validator.__init__` establishes that the claims mention:
the filtered active task list (the reward pipeline is built from exactly
this list via `RewardPipeline(selected_tasks=self.active_tasks)`). -/
structure Validator where
  active_tasks : List String
  deriving DecidableEq

/-- Validator construction: raises ValueError when the task probabilities do
not sum to 1, otherwise keeps the tasks zipped with a positive probability,
in order, exactly as the list comprehension does. -/
def validatorInit (c : VConfig) : Except String Validator :=
  if c.task_p.sum ≠ 1 then
    Except.error "Task probabilities do not sum to 1."
  else
    Except.ok
      { active_tasks :=
          ((c.tasks.zip c.task_p).filter (fun tp => decide (0 < tp.2))).map
            Prod.fst }

/-! Concrete fixtures used to evaluate the handler at explicit inputs. -/

/-- A model zoo in which no identifier resolves. -/
def zooNone : String → Option Unit := fun _ => none

/-- A model zoo that resolves exactly the identifier "test-model". -/
def zooTest : String → Option Unit :=
  fun s => if s = "test-model" then some () else none

/-- Baseline environment: block 100, default timeout 30, a fixed sampling
default, an empty model zoo and a fixed fresh task id. -/
def envA : Env :=
  { block := 100, neuronTimeout := 30,
    samplingParams := [("temperature", "1")],
    modelZoo := zooNone, freshId := "tid-a" }

/-- A message whose content is the string "what is lean". -/
def msgQuery : Message := { content := some (some "what is lean") }

/-- A message whose content key is present but null. -/
def msgNull : Message := { content := some none }

/-- Body of an InferenceTask request naming the resolvable model. -/
def bodyModel : Body :=
  { model := some "test-model", task := some "InferenceTask",
    messages := some [msgQuery], seed := none, sampling_parameters := none,
    sampling_params := none, timeout := none }

/-- Payload carrying `bodyModel` with one uid and its chunk list. -/
def payloadModel : Payload :=
  { body := some bodyModel, timeout := none, uid := some [1],
    chunks := some [("1", ["a"])] }

/-- Retrieval body with a well-formed first message. -/
def bodyRet : Body :=
  { model := none, task := some "WebRetrievalTask",
    messages := some [msgQuery], seed := none, sampling_parameters := none,
    sampling_params := none, timeout := none }

/-- Payload carrying `bodyRet` with three uids, two of which have chunks. -/
def payloadRet : Payload :=
  { body := some bodyRet, timeout := none, uid := some [1, 2, 3],
    chunks := some [("1", ["a", "b"]), ("3", ["c"])] }

/-- Inference body without a model identifier. -/
def bodyInf : Body :=
  { model := none, task := some "InferenceTask",
    messages := some [msgQuery], seed := none, sampling_parameters := none,
    sampling_params := none, timeout := none }

/-- Same uids and chunks as `payloadRet`, but an InferenceTask body. -/
def payloadInf : Payload := { payloadRet with body := some bodyInf }

/-- C1: the claim says a resolvable model identifier lets normalization
proceed to the enqueue; in the code the `return` after the try/except of the
model-zoo lookup is unconditional, so a payload whose model resolves in the
zoo is still dropped: nothing is enqueued, and not even the cannot-be-found
warning is logged. The first conjunct checks that the model does resolve. -/
theorem model_resolvable_still_never_enqueues :
    zooTest "test-model" = some () ∧
    score_response { envA with modelZoo := zooTest } payloadModel =
      { enqueued := [], errorLog := none, exc := none } := by
  constructor
  · rfl
  · rfl

/-- C2: the claim says the verifier reconstructs the dotted canonical message
digest.nonce.timestamp.recipient and reports a signature mismatch exactly on
cryptographic failure; in the code, once the isinstance checks pass and
signed_by equals the configured hotkey, evaluating the message f-string hits
the undefined global sha256 (and timestamp, signed_for, Keypair are equally
undefined; uuid denotes the module), so every such call raises NameError and
no cryptographic verification ever happens. -/
theorem verify_raises_on_undefined_globals (hk s : String) (b : List Nat) :
    verify_scoring_signature hk (PyVal.str s) (PyVal.bytes b) (PyVal.str hk) =
      VerifyResult.nameError "sha256" := by
  simp [verify_scoring_signature]

/-- C3: the claim says requests whose timestamp falls outside a configured
freshness window are rejected; the embedded verifier has no timestamp among
its inputs at all, and every possible outcome of a call is either the
NameError from the undefined globals or one of the four fixed rejection
messages, none of which concerns staleness — so no freshness check exists. -/
theorem verify_has_no_freshness_check (hk : String) (sig body sb : PyVal) :
    verify_scoring_signature hk sig body sb = VerifyResult.nameError "sha256" ∨
    (∃ m, verify_scoring_signature hk sig body sb = VerifyResult.ret (some m) ∧
      (m = "Invalid signature type" ∨ m = "Body is not of type bytes" ∨
       m = "Invalid signed_by address" ∨
       m = "Message not from the expected SS58 address")) := by
  rcases sig with s | b1 | _ <;> rcases body with s2 | b2 | _ <;>
    rcases sb with s3 | b3 | _ <;> simp [verify_scoring_signature]
  by_cases h : s3 = hk <;> simp [h]

/-- C4: the claim says the response bundle has one entry per requested uid in
caller order, with a null placeholder for absent uids, for every task kind.
The InferenceTask branch does behave that way (first conjunct: uids [1, 2, 3]
with chunks for "1" and "3" give three ordered entries and a none placeholder
for 2). The WebRetrievalTask branch does not: it wraps the whole uid list as
a single element and builds a single stream result out of the keys of the
chunks dict (second conjunct), so neither per-uid entries, order, nor
placeholders exist there. -/
theorem response_bundle_per_uid_only_for_inference :
    (score_response envA payloadInf).enqueued.map (fun e => e.response) =
      [{ uids := [UidVal.single 1, UidVal.single 2, UidVal.single 3],
         stream_results :=
           [{ accumulated_chunks := some ["a", "b"] },
            { accumulated_chunks := none },
            { accumulated_chunks := some ["c"] }],
         timeout := 30 }] ∧
    (score_response envA payloadRet).enqueued.map (fun e => e.response) =
      [{ uids := [UidVal.listOf [1, 2, 3]],
         stream_results := [{ accumulated_chunks := some ["1", "3"] }],
         timeout := 30 }] := by
  constructor
  · rfl
  · rfl

/-- Body whose task discriminator is outside the closed variant set. -/
def bodyUnk : Body := { bodyInf with task := some "SomeOtherTask" }

/-- Payload carrying `bodyUnk` with valid uids and chunks. -/
def payloadUnk : Payload := { payloadRet with body := some bodyUnk }

/-- C5 counterexample: the claim says a payload whose task discriminator is
not InferenceTask or WebRetrievalTask fails with an UnknownTaskKind error; at
this concrete input nothing is enqueued, but no error of any kind is raised
either — the handler completes silently (and the code even logs its success
message on this path). -/
theorem unknown_task_no_error_counterexample :
    (score_response envA payloadUnk).enqueued = [] ∧
    ¬((score_response envA payloadUnk).errorLog ≠ none ∨
      (score_response envA payloadUnk).exc ≠ none) := by
  decide

/-- C5 amended: for a payload that passes the uid/chunks check, carries a
body, names no (truthy) model and whose task discriminator is neither
InferenceTask nor WebRetrievalTask, the handler enqueues nothing and signals
no error at all: it falls through both branches and returns silently. -/
theorem unknown_task_silently_ignored (env : Env) (payload : Payload)
    (body : Body)
    (h1 : (payload.uid.getD []).isEmpty = false)
    (h2 : (payload.chunks.getD []).isEmpty = false)
    (h3 : payload.body = some body)
    (h4 : strTruthy body.model = false)
    (h5 : body.task ≠ some "InferenceTask")
    (h6 : body.task ≠ some "WebRetrievalTask") :
    score_response env payload =
      { enqueued := [], errorLog := none, exc := none } := by
  unfold score_response
  rw [h3]
  simp [h1, h2, h4, h5, h6]

/-- C5 witness: the amended statement instantiated at the concrete
unknown-task payload. -/
theorem unknown_task_silently_ignored_witness :
    score_response envA payloadUnk =
      { enqueued := [], errorLog := none, exc := none } :=
  unknown_task_silently_ignored envA payloadUnk bodyUnk (by decide) (by decide)
    (by decide) (by decide) (by decide) (by decide)

/-- Retrieval body whose single message carries a null content. -/
def bodyNullContent : Body := { bodyRet with messages := some [msgNull] }

/-- Payload carrying `bodyNullContent` with valid uids and chunks. -/
def payloadNullContent : Payload :=
  { body := some bodyNullContent, timeout := none, uid := some [1],
    chunks := some [("1", ["a"])] }

/-- C6 counterexample: the claim says every WebRetrievalTask payload from
which no search term can be extracted from the first message fails and
enqueues nothing; here the first message exists but its content is null, so
there is no search term, yet the handler raises no error and enqueues the
task with a null search term in its dataset entry — because only exceptions
from `messages[0].get("content")` are treated as failure and a null content
raises none. -/
theorem null_search_term_enqueued_counterexample :
    (score_response envA payloadNullContent).errorLog = none ∧
    (score_response envA payloadNullContent).exc = none ∧
    (score_response envA payloadNullContent).enqueued.map
        (fun e => e.dataset_entry) = [DSEntry.ddg none] := by
  decide

/-- C6 amended: for a payload that reaches the WebRetrievalTask branch, the
missing-search-term failure (log and return, nothing enqueued) occurs when
the messages list is absent or empty — the cases where subscripting the first
message raises; but a first message whose content is present and null is not
detected as missing: no missing-search-term error is logged on that path (as
the counterexample shows, such a task is enqueued with a null search term). -/
theorem webretrieval_missing_messages_abort (env : Env) (payload : Payload)
    (body : Body)
    (h1 : (payload.uid.getD []).isEmpty = false)
    (h2 : (payload.chunks.getD []).isEmpty = false)
    (h3 : payload.body = some body)
    (h4 : strTruthy body.model = false)
    (h5 : body.task = some "WebRetrievalTask") :
    (body.messages = none ∨ body.messages = some [] →
      score_response env payload =
        { enqueued := [],
          errorLog := some "Failed to get search term from messages",
          exc := none }) ∧
    (∀ m rest, body.messages = some (m :: rest) → m.content = some none →
      (score_response env payload).errorLog = none) := by
  constructor
  · intro hm
    unfold score_response
    rw [h3]
    rcases hm with hm | hm <;> simp [h1, h2, h4, h5, hm]
  · intro m rest hm _
    unfold score_response
    rw [h3]
    rcases hAll : allContents (m :: rest) with _ | cs <;>
      simp [h1, h2, h4, h5, hm, hAll]

/-- Retrieval body with an empty messages list. -/
def bodyEmptyMsgs : Body := { bodyRet with messages := some [] }

/-- Payload carrying `bodyEmptyMsgs` with valid uids and chunks. -/
def payloadEmptyMsgs : Payload :=
  { body := some bodyEmptyMsgs, timeout := none, uid := some [2],
    chunks := some [("2", ["z"])] }

/-- C6 witness: the amended statement instantiated at the empty-messages
retrieval payload of the spec. -/
theorem webretrieval_missing_messages_abort_witness :
    score_response envA payloadEmptyMsgs =
      { enqueued := [],
        errorLog := some "Failed to get search term from messages",
        exc := none } :=
  (webretrieval_missing_messages_abort envA payloadEmptyMsgs bodyEmptyMsgs
    (by decide) (by decide) (by decide) (by decide) (by decide)).1
    (Or.inr (by decide))

/-- C7: whenever the uid list (after its empty-list default) or the chunks
mapping is empty, the handler logs the condition and returns without
enqueuing anything and without raising, so no HTTP error reaches the caller. -/
theorem empty_uids_or_chunks_silent_noop (env : Env) (payload : Payload)
    (h : ((payload.uid.getD []).isEmpty ||
          (payload.chunks.getD []).isEmpty) = true) :
    score_response env payload =
      { enqueued := [],
        errorLog := some "Either uids or chunks is not valid, skipping scoring",
        exc := none } := by
  unfold score_response
  simp [h]

/-- Payload with an empty uid list and nonempty chunks. -/
def payloadNoUids : Payload :=
  { body := some bodyInf, timeout := none, uid := some [],
    chunks := some [("1", ["a"])] }

/-- C7 witness: the theorem instantiated at a payload with an empty uid
list. -/
theorem empty_uids_or_chunks_silent_noop_witness :
    score_response envA payloadNoUids =
      { enqueued := [],
        errorLog := some "Either uids or chunks is not valid, skipping scoring",
        exc := none } :=
  empty_uids_or_chunks_silent_noop envA payloadNoUids (by decide)

/-- C8: every entry the handler enqueues, on either task branch, carries
step equal to minus one and the block height read from the chain-state
snapshot of this call. -/
theorem enqueued_step_and_block (env : Env) (payload : Payload)
    (e : QueueEntry) (h : e ∈ (score_response env payload).enqueued) :
    e.step = -1 ∧ e.block = env.block := by
  unfold score_response at h
  repeat' split at h
  all_goals simp_all

/-- The queue entry produced by `score_response envA payloadInf`. -/
def entryInf : QueueEntry :=
  { task := STask.inference (some [msgQuery]) none none 0
      [("temperature", "1")] (some [msgQuery]),
    response := { uids := [UidVal.single 1, UidVal.single 2, UidVal.single 3],
                  stream_results :=
                    [{ accumulated_chunks := some ["a", "b"] },
                     { accumulated_chunks := none },
                     { accumulated_chunks := some ["c"] }],
                  timeout := 30 },
    dataset_entry := DSEntry.base,
    block := 100, step := -1, task_id := "tid-a" }

/-- C8 witness: the theorem applied to the concrete entry enqueued for the
inference payload. -/
theorem enqueued_step_and_block_witness :
    entryInf.step = -1 ∧ entryInf.block = envA.block :=
  enqueued_step_and_block envA payloadInf entryInf (by decide)

/-- C9: validator construction succeeds exactly when the configured task
probabilities sum to 1, and a non-summing configuration raises the fatal
ValueError of the source. -/
theorem validator_init_weights_check (c : VConfig) :
    ((∃ v, validatorInit c = Except.ok v) ↔ c.task_p.sum = 1) ∧
    (c.task_p.sum ≠ 1 →
      validatorInit c = Except.error "Task probabilities do not sum to 1.") := by
  unfold validatorInit
  by_cases h : c.task_p.sum = 1 <;> simp [h]

/-- Configuration with the spec example weights summing to 1. -/
def vcGood : VConfig :=
  { tasks := ["qa", "summarization", "math"],
    task_p := [(1 : ℚ)/2, 3/10, 1/5] }

/-- Configuration with the spec example weights summing to 9/10. -/
def vcBad : VConfig :=
  { tasks := ["qa", "summarization", "math"],
    task_p := [(1 : ℚ)/2, 3/10, 1/10] }

/-- C9 witness: with the spec weights of sum 1 construction proceeds, and
with the spec weights of sum 9/10 it raises the fatal error. -/
theorem validator_init_weights_check_witness :
    (∃ v, validatorInit vcGood = Except.ok v) ∧
    validatorInit vcBad = Except.error "Task probabilities do not sum to 1." :=
  ⟨(validator_init_weights_check vcGood).1.mpr (by norm_num [vcGood]),
   (validator_init_weights_check vcBad).2 (by norm_num [vcBad])⟩

/-- Helper: the kept-task list is a sublist of the configured tasks, so the
configuration order is preserved. -/
theorem zip_filter_map_sublist (ts : List String) :
    ∀ ps : List ℚ,
      (((ts.zip ps).filter (fun tp => decide (0 < tp.2))).map
        Prod.fst).Sublist ts := by
  induction ts with
  | nil => intro ps; simp
  | cons t ts ih =>
    intro ps
    cases ps with
    | nil => simp
    | cons p ps =>
      by_cases h : (0 : ℚ) < p
      · simpa [h] using List.Sublist.cons₂ t (ih ps)
      · simpa [h] using List.Sublist.cons t (ih ps)

/-- Helper: position-wise description of the kept-task list, for
configurations where tasks and probabilities align. -/
theorem zip_filter_map_eq_index (ts : List String) :
    ∀ ps : List ℚ, ts.length = ps.length →
      ((ts.zip ps).filter (fun tp => decide (0 < tp.2))).map Prod.fst =
        ((List.range ts.length).filter
            (fun i => decide (0 < ps.getD i 0))).map
          (fun i => ts.getD i "") := by
  induction ts with
  | nil => intro ps h; simp
  | cons t ts ih =>
    intro ps h
    cases ps with
    | nil => simp at h
    | cons p ps =>
      have hlen : ts.length = ps.length := by simpa using h
      rw [List.length_cons, List.range_succ_eq_map]
      by_cases hp : (0 : ℚ) < p <;>
        simp [hp, List.filter_map, Function.comp_def,
          List.getElem?_cons_succ, ih ps hlen]

/-- C10: after a successful construction whose configuration aligns tasks
with probabilities, the active task list consists of exactly the configured
tasks whose probability is strictly positive, taken in configuration order
(it is position-wise the positive-probability selection, and a sublist of the
configured task list). -/
theorem validator_active_tasks_exactly_positive (c : VConfig) (v : Validator)
    (hok : validatorInit c = Except.ok v)
    (hlen : c.tasks.length = c.task_p.length) :
    v.active_tasks =
      ((List.range c.tasks.length).filter
          (fun i => decide (0 < c.task_p.getD i 0))).map
        (fun i => c.tasks.getD i "") ∧
    v.active_tasks.Sublist c.tasks := by
  unfold validatorInit at hok
  split at hok
  · cases hok
  · cases hok
    constructor
    · exact zip_filter_map_eq_index c.tasks c.task_p hlen
    · exact zip_filter_map_sublist c.tasks c.task_p

/-- Configuration with a zero-probability middle task. -/
def vc10 : VConfig :=
  { tasks := ["qa", "summarization", "math"],
    task_p := [(1 : ℚ)/2, 0, 1/2] }

/-- The validator produced from `vc10`. -/
def v10 : Validator := { active_tasks := ["qa", "math"] }

/-- C10 witness: the characterization instantiated at a configuration whose
middle task has probability zero and is dropped. -/
theorem validator_active_tasks_exactly_positive_witness :
    v10.active_tasks =
      ((List.range vc10.tasks.length).filter
          (fun i => decide (0 < vc10.task_p.getD i 0))).map
        (fun i => vc10.tasks.getD i "") ∧
    v10.active_tasks.Sublist vc10.tasks :=
  validator_active_tasks_exactly_positive vc10 v10 (by norm_num [validatorInit, vc10, v10]) rfl
